import Mathlib

/-!
Formal model of the tryrack virtual try-on job pipeline
(`backend/app/api/virtual_tryon.py`, `backend/app/services/gemini_service.py`,
`backend/app/services/s3_service.py`).

The background task `process_virtual_tryon_with_ai` is embedded as a pure
function from an environment of collaborator oracles (HTTP fetch outcomes,
wardrobe lookups, the generation service's reply, the S3 upload's reply) to
the ordered list of observable states (job record + fast-result-cache entry)
produced by the run, together with the list of generation-service invocations.
Observable states are recorded at every database commit / cache mutation;
between two consecutive recorded states no await point mutates the job, so the
trace covers every moment a concurrent poller could observe (asyncio runs the
task single-threaded between suspension points).

Byte strings fetched over HTTP are identified with their base64 encodings:
the code converts fetched bytes with `base64.b64encode(...)`, a bijection on
payloads that never affects control flow, so payloads are carried verbatim.

Collaborators are modelled by their contracts as realised in this repository:
`generate_virtual_tryon` has a catch-all handler and returns `None` on any
failure; `upload_file_from_base64` returns `None` on its anticipated failures
(`ClientError`, `ValueError`, `binascii.Error`).
-/

deriving instance DecidableEq for Except

namespace Tryrack

/-- Python truthiness of an optional string (`if s:`): `None` and `""` are falsy. -/
def truthy : Option String → Bool
  | none => false
  | some s => !s.isEmpty

/-- Python `a or b` on two optional strings, followed by an `if result:` guard:
yields the first truthy operand, `none` when both are falsy. -/
def orTruthy (a b : Option String) : Option String :=
  if truthy a then a else if truthy b then b else none

/-- `str(e)[:500]` from the orchestrator's boundary handler (line 380). -/
def truncate500 (s : String) : String := s.take 500

/-- Python's `str.lower()` as applied to the ASCII `item_type` labels
("wardrobe", "boutique", ...): lowercase character by character, implemented
over the char list so it evaluates structurally. -/
def lowerAscii (s : String) : String :=
  ⟨s.data.map Char.toLower⟩

/-! ## `fetch_with_retries` (virtual_tryon.py lines 99-110) -/

/-- Outcome of the `i`-th HTTP GET attempt against one URL: the response body,
or the exception message the attempt raised. -/
abbrev FetchOracle := Nat → Except String String

/-- Result of one `fetch_with_retries` call: the returned bytes or the raised
exception, how many GET attempts were issued, and the `asyncio.sleep` delays
(in seconds) performed after failed attempts, in order. -/
structure FetchTrace where
  result : Except String String
  attemptsMade : Nat
  delays : List ℚ
deriving Repr, DecidableEq

/-- The `for i in range(attempts)` loop of `fetch_with_retries`: attempt `i`,
on success return the body, on exception record it, sleep `1.5 * (i + 1)`
seconds and continue; once attempts are exhausted re-raise the last exception. -/
def fetchGo (oracle : FetchOracle) : Nat → Nat → Option String → FetchTrace
  | _, 0, lastExc => ⟨Except.error (lastExc.getD ""), 0, []⟩
  | i, rem + 1, _ =>
    match oracle i with
    | Except.ok body => ⟨Except.ok body, 1, []⟩
    | Except.error e =>
      let rest := fetchGo oracle (i + 1) rem (some e)
      ⟨rest.result, rest.attemptsMade + 1, ((3 : ℚ) / 2 * (i + 1)) :: rest.delays⟩

/-- `fetch_with_retries(url, attempts=3)`: the per-URL retry wrapper used by
image acquisition (virtual_tryon.py lines 99-110). -/
def fetch_with_retries (oracle : FetchOracle) (attempts : Nat := 3) : FetchTrace :=
  fetchGo oracle 0 attempts none

/-! ## Data model -/

/-- `VirtualTryOnStatus` (models/__init__.py lines 134-137). -/
inductive VirtualTryOnStatus
  | PROCESSING
  | COMPLETED
  | FAILED
deriving Repr, DecidableEq

/-- The mutable fields of one `VirtualTryOnResult` row that the pipeline
touches (models/__init__.py lines 158-162). -/
structure TryonRecord where
  status : VirtualTryOnStatus
  error_message : Option String
  result_image_url : Option String
deriving Repr, DecidableEq

/-- One observable state of a single job: its database row (`none` once/while
no row exists) and its `TRYON_RESULT_CACHE` entry. -/
structure ObsState where
  record : Option TryonRecord
  cache : Option String
deriving Repr, DecidableEq

/-- The status a poller reads in an observable state. -/
def statusOf (s : ObsState) : Option VirtualTryOnStatus :=
  s.record.map (·.status)

/-- The fields of a wardrobe row read by the orchestrator's item lookup
(virtual_tryon.py lines 136-145); a `NULL` tags column is modelled as `[]`,
matching the code's `wardrobe_item.tags or []`. -/
structure WardrobeItem where
  image_clean : Option String
  image_original : Option String
  tags : List String
  formality : Option Int
deriving Repr, DecidableEq

/-- One entry of the `items` list handed to the background task: the dict
built by the generate endpoint (virtual_tryon.py lines 643-654), plus the
`tags`/`formality` keys the acquisition loop may add. -/
structure Item where
  item_id : Option String
  item_type : String
  category : String
  colors : List String
  image_base64 : Option String := none
  tags : List String := []
  formality : Option Int := none
deriving Repr, DecidableEq

/-- One entry of the `gemini_items` list passed to the generation invoker
(virtual_tryon.py lines 291-300). -/
structure GemItem where
  image_base64 : String
  category : String
  colors : List String
  tags : List String
  formality : Option Int
deriving Repr, DecidableEq

/-- `gemini_items` projection of one surviving item (lines 291-300). -/
def toGem (it : Item) : GemItem :=
  { image_base64 := it.image_base64.getD ""
    category := it.category
    colors := it.colors
    tags := it.tags
    formality := it.formality }

/-- Collaborator oracles for one orchestrator run. `fetch` gives the outcome
of the `i`-th GET attempt against a URL; `wardrobe` is
`get_wardrobe_item(db, id, user_id)` (already owner-scoped); `gen` is the
return value of `generate_virtual_tryon` (`none` on any failure — the service
wrapper has a catch-all and never raises); `upload` is the return value of
`upload_file_from_base64` (`none` on failure, per its contract). -/
structure Env where
  fetch : String → FetchOracle
  wardrobe : Int → Option WardrobeItem
  gen : Option String
  upload : Option String

/-! ## Image acquisition (virtual_tryon.py lines 113-242) -/

/-- Body of the per-item resolution loop (lines 122-163): decide whether item
`idx` needs a network fetch and, for wardrobe items, copy the row's
tags/formality onto the item. Returns the (possibly updated) item and the URL
to fetch, if any. A wardrobe lookup that fails, returns no row, or returns a
row without an image URL resolves to "no fetch" (the item is later dropped);
an `item_id` that `int()` rejects is caught and likewise skipped. -/
def resolveItem (env : Env) (item_image_urls : Option (List String)) (idx : Nat)
    (item : Item) : Item × Option String :=
  if truthy item.image_base64 then (item, none)
  else if lowerAscii item.item_type == "wardrobe" && truthy item.item_id
      && item.item_id != some "0" then
    match item.item_id.bind String.toInt? with
    | none => (item, none)
    | some n =>
      match env.wardrobe n with
      | none => (item, none)
      | some w =>
        match orTruthy w.image_clean w.image_original with
        | none => (item, none)
        | some url => ({ item with tags := w.tags, formality := w.formality }, some url)
  else
    match item_image_urls with
    | none => (item, none)
    | some urls =>
      match urls[idx]? with
      | some u => if u.isEmpty then (item, none) else (item, some u)
      | none => (item, none)

/-- The resolution loop over all items, threading the index: returns the
updated items and the ordered `(index, url)` fetch list
(`item_url_indices` / `item_urls_to_fetch`). -/
def resolveItemsGo (env : Env) (urls : Option (List String)) :
    Nat → List Item → List Item × List (Nat × String)
  | _, [] => ([], [])
  | idx, it :: rest =>
    let p := resolveItem env urls idx it
    let r := resolveItemsGo env urls (idx + 1) rest
    (p.1 :: r.1, match p.2 with
      | some u => (idx, u) :: r.2
      | none => r.2)

/-- `resolveItemsGo` started at index 0. -/
def resolveItems (env : Env) (urls : Option (List String)) (items : List Item) :
    List Item × List (Nat × String) :=
  resolveItemsGo env urls 0 items

/-- Replace the element at position `i` (no-op when out of range). -/
def modifyIdx : List Item → Nat → (Item → Item) → List Item
  | [], _, _ => []
  | x :: xs, 0, f => f x :: xs
  | x :: xs, n + 1, f => x :: modifyIdx xs n f

/-- The response-mapping loop (lines 191-215): each item fetch that succeeded
writes its payload into the item's `image_base64`; a fetch that ended in an
exception only logs and leaves the item without a payload. -/
def applyItemFetches (env : Env) (items : List Item) (pairs : List (Nat × String)) :
    List Item :=
  pairs.foldl
    (fun acc p =>
      match (fetch_with_retries (env.fetch p.2) 3).result with
      | Except.ok body => modifyIdx acc p.1 fun it => { it with image_base64 := some body }
      | Except.error _ => acc)
    items

/-- Outcome of the acquisition stage: either an exception escaped to the
orchestrator's boundary handler (only the eager subject prefetch on lines
113-115 can raise), or the final `user_image_base64` plus the items after
fetching. -/
inductive AcqOutcome
  | raised (msg : String)
  | done (user_image_base64 : Option String) (items : List Item)
deriving Repr, DecidableEq

/-- The whole acquisition stage (lines 113-242 up to the item filter):
1. lines 113-115 — when no inline subject payload was supplied but a URL was,
   fetch it eagerly; the re-raised exception of `fetch_with_retries`
   propagates out of the stage;
2. lines 119-163 — resolve the per-item fetch list;
3. lines 165-215 — the gather: the subject joins it only when still
   unfetched and a URL exists (a failure here is only logged), and each item
   fetch writes back on success;
4. lines 220-222 — adopt the fetched subject payload when no inline one was
   supplied. -/
def acquisitionPhase (env : Env) (user_image_url user_image_base64 : Option String)
    (item_image_urls : Option (List String)) (items : List Item) : AcqOutcome :=
  let prefetch : Except String (Option String) :=
    if !truthy user_image_base64 && truthy user_image_url then
      match (fetch_with_retries (env.fetch (user_image_url.getD "")) 3).result with
      | Except.ok body => Except.ok (some body)
      | Except.error e => Except.error e
    else Except.ok none
  match prefetch with
  | Except.error e => AcqOutcome.raised e
  | Except.ok fetched0 =>
    let r := resolveItems env item_image_urls items
    let fetchedUser : Option String :=
      if fetched0.isNone && truthy user_image_url then
        match (fetch_with_retries (env.fetch (user_image_url.getD "")) 3).result with
        | Except.ok body => some body
        | Except.error _ => none
      else fetched0
    let items1 := applyItemFetches env r.1 r.2
    let userB64 :=
      if !truthy user_image_base64 && fetchedUser.isSome then fetchedUser
      else user_image_base64
    AcqOutcome.done userB64 items1

/-- The surviving items of a run: the acquisition output filtered to those
holding a payload (`processed_items`, lines 232-242). -/
def acquiredItems (env : Env) (item_image_urls : Option (List String))
    (items : List Item) : List Item :=
  let r := resolveItems env item_image_urls items
  (applyItemFetches env r.1 r.2).filter fun it => truthy it.image_base64

/-! ## Result delivery and the orchestrator (virtual_tryon.py lines 28-385) -/

/-- Error string set on upload failure (line 351). -/
def s3UploadFailedMsg : String := "Failed to upload virtual try-on result to S3"

/-- Error string set on generation failure (line 365). -/
def genFailedMsg : String := "Failed to generate virtual try-on image with Gemini"

/-- Error string set when no subject payload is available (line 227). -/
def noUserImageMsg : String := "User image is required"

/-- Error string set when no item survived acquisition (line 256). -/
def noItemsMsg : String := "No valid items with images found"

/-- Outcome of one orchestrator run: the observable states in order (starting
from the state the run was launched in) and the generation-service
invocations, each carrying the item payload list it was given. -/
structure RunOut where
  trace : List ObsState
  genCalls : List (List GemItem)
deriving Repr, DecidableEq

/-- The state a poller sees once the run has terminated. -/
def RunOut.finalState (r : RunOut) : Option ObsState :=
  r.trace.getLast?

/-- The job statuses visible along a run's trace. -/
def RunOut.statuses (r : RunOut) : List VirtualTryOnStatus :=
  r.trace.filterMap statusOf

/-- Generation and result delivery (lines 284-368), entered with the record
in `PROCESSING` and a non-empty surviving item list:
* line 302 — the single generation call;
* lines 314-318 — on success, write the cache entry and commit `COMPLETED`
  (no await separates the two, so they form one observable step);
* lines 330-336 — the upload suspension, during which the
  `COMPLETED`-with-cache state is observable;
* lines 344-348 — upload returned a URL: set `result_image_url`, commit, pop
  the cache entry;
* lines 349-353 — upload returned `None`: commit `FAILED` with
  `s3UploadFailedMsg` and pop the cache entry;
* lines 362-366 — generation returned nothing truthy: commit `FAILED` with
  `genFailedMsg`. -/
def deliveryPhase (env : Env) (rec1 : TryonRecord) (cache0 : Option String)
    (gemItems : List GemItem) : List ObsState × List (List GemItem) :=
  if truthy env.gen then
    let result := env.gen.getD ""
    let sC : ObsState := ⟨some { rec1 with status := VirtualTryOnStatus.COMPLETED }, some result⟩
    if truthy env.upload then
      let recU : TryonRecord :=
        { rec1 with status := VirtualTryOnStatus.COMPLETED, result_image_url := env.upload }
      ([sC, ⟨some recU, none⟩], [gemItems])
    else
      let recF : TryonRecord :=
        { rec1 with status := VirtualTryOnStatus.FAILED, error_message := some s3UploadFailedMsg }
      ([sC, ⟨some recF, none⟩], [gemItems])
  else
    let recF : TryonRecord :=
      { rec1 with status := VirtualTryOnStatus.FAILED, error_message := some genFailedMsg }
    ([⟨some recF, cache0⟩], [gemItems])

/-- The orchestrator `process_virtual_tryon_with_ai` (lines 28-385) over one
job. `rec0` is the job's row when the run starts (`none`: deleted
concurrently, lines 81-83 abort silently); `cache0` its pre-existing cache
entry (`none` for a fresh job). The remaining arguments are the task's
parameters. Observable states, in order:
* the launch state and the idempotent `PROCESSING` commit (lines 85-86);
* when the eager subject fetch raises, the boundary handler (lines 370-381)
  re-reads the row and commits `FAILED` with the truncated exception text;
* lines 224-229 — no subject payload: commit `FAILED`;
* lines 255-262 — no surviving item: commit `FAILED`;
* otherwise the delivery states. -/
def process_virtual_tryon_with_ai (env : Env) (rec0 : Option TryonRecord)
    (cache0 : Option String) (user_image_url : Option String) (items : List Item)
    (user_image_base64 : Option String) (item_image_urls : Option (List String)) :
    RunOut :=
  let s0 : ObsState := ⟨rec0, cache0⟩
  match rec0 with
  | none => ⟨[s0], []⟩
  | some rec =>
    let rec1 : TryonRecord := { rec with status := VirtualTryOnStatus.PROCESSING }
    let s1 : ObsState := ⟨some rec1, cache0⟩
    match acquisitionPhase env user_image_url user_image_base64 item_image_urls items with
    | AcqOutcome.raised e =>
      let recF : TryonRecord :=
        { rec1 with status := VirtualTryOnStatus.FAILED, error_message := some (truncate500 e) }
      ⟨[s0, s1, ⟨some recF, cache0⟩], []⟩
    | AcqOutcome.done userB64 items1 =>
      if truthy userB64 then
        let processed := items1.filter fun it => truthy it.image_base64
        if processed.isEmpty then
          let recF : TryonRecord :=
            { rec1 with status := VirtualTryOnStatus.FAILED, error_message := some noItemsMsg }
          ⟨[s0, s1, ⟨some recF, cache0⟩], []⟩
        else
          let d := deliveryPhase env rec1 cache0 (processed.map toGem)
          ⟨[s0, s1] ++ d.1, d.2⟩
      else
        let recF : TryonRecord :=
          { rec1 with status := VirtualTryOnStatus.FAILED, error_message := some noUserImageMsg }
        ⟨[s0, s1, ⟨some recF, cache0⟩], []⟩

/-! ## The generation invoker's own retry (gemini_service.py lines 416-433) -/

/-- Outcome of one POST attempt to the generation service, as seen by the
retry loop: a 2xx response whose JSON was read, an HTTP error status (for
which `raise_for_status()` raises `httpx.HTTPStatusError`, a subclass of
`httpx.HTTPError`), or a transport-level failure
(`httpx.ConnectError` / `httpx.ReadTimeout`). -/
inductive GeminiAttempt
  | success (body : String)
  | statusError (code : Nat)
  | transportFailure (msg : String)
deriving Repr, DecidableEq

/-- Result of the invoker's retry loop: the JSON body it broke out with
(`none` when every attempt raised — the re-raised exception is an
`httpx.HTTPError` and the enclosing handler returns `None`), the number of
POST attempts issued, and the back-off sleeps performed. -/
structure GeminiCallTrace where
  result : Option String
  attemptsMade : Nat
  delays : List ℚ
deriving Repr, DecidableEq

/-- The `for attempt in range(3)` loop (lines 419-431). The clause
`except (httpx.ConnectError, httpx.ReadTimeout, httpx.HTTPError)` catches
every non-success outcome — `httpx.HTTPError` is the base class of both the
transport errors and `httpx.HTTPStatusError` — so an HTTP error status is
retried exactly like a transport failure, each retry preceded by a
`1.5 * (attempt + 1)` second sleep. -/
def geminiCallGo (oracle : Nat → GeminiAttempt) : Nat → Nat → GeminiCallTrace
  | _, 0 => ⟨none, 0, []⟩
  | i, rem + 1 =>
    match oracle i with
    | GeminiAttempt.success body => ⟨some body, 1, []⟩
    | _ =>
      let rest := geminiCallGo oracle (i + 1) rem
      ⟨rest.result, rest.attemptsMade + 1, ((3 : ℚ) / 2 * (i + 1)) :: rest.delays⟩

/-- The invoker's bounded retry around the generation POST
(gemini_service.py lines 416-433). -/
def gemini_retry_loop (oracle : Nat → GeminiAttempt) : GeminiCallTrace :=
  geminiCallGo oracle 0 3

/-! ## Polling and deletion endpoints (virtual_tryon.py lines 682-775) -/

/-- One `virtual_tryon_results` row with the columns the endpoints filter on. -/
structure StoredJob where
  id : Int
  user_id : Int
  record : TryonRecord
deriving Repr, DecidableEq

/-- The response fields of `VirtualTryOnResponse` the claims are about,
including the `result_image_base64` overlay slot (schemas lines 206-207). -/
structure TryonView where
  status : VirtualTryOnStatus
  result_image_url : Option String
  error_message : Option String
  result_image_base64 : Option String
deriving Repr, DecidableEq

/-- An endpoint outcome: a body, or an `HTTPException` with code and detail. -/
inductive ApiResult (α : Type)
  | ok (a : α)
  | httpError (code : Nat) (detail : String)
deriving Repr, DecidableEq

/-- 404 detail used by both the poll and delete endpoints (lines 707, 753). -/
def notFoundDetail : String := "Virtual try-on not found"

/-- `GET /{tryon_id}` (lines 682-718): look the row up by id AND owner; on a
miss answer 404 "Virtual try-on not found"; otherwise serialize the row and,
when the status is `COMPLETED` and `result_image_url` is not yet set, overlay
a truthy `TRYON_RESULT_CACHE` entry as `result_image_base64`. -/
def get_tryon_result (db : List StoredJob) (cache : Int → Option String)
    (tryon_id user_id : Int) : ApiResult TryonView :=
  match db.find? fun j => j.id == tryon_id && j.user_id == user_id with
  | none => ApiResult.httpError 404 notFoundDetail
  | some j =>
    let base : TryonView :=
      ⟨j.record.status, j.record.result_image_url, j.record.error_message, none⟩
    if j.record.status = VirtualTryOnStatus.COMPLETED
        ∧ truthy j.record.result_image_url = false then
      match cache tryon_id with
      | some b64 =>
        if b64.isEmpty then ApiResult.ok base
        else ApiResult.ok { base with result_image_base64 := some b64 }
      | none => ApiResult.ok base
    else ApiResult.ok base

/-- `DELETE /{tryon_id}` (lines 730-765): look the row up by id AND owner; on
a miss answer the same 404; otherwise delete the row (204). -/
def delete_tryon (db : List StoredJob) (tryon_id user_id : Int) :
    ApiResult (List StoredJob) :=
  match db.find? fun j => j.id == tryon_id && j.user_id == user_id with
  | none => ApiResult.httpError 404 notFoundDetail
  | some j => ApiResult.ok (db.erase j)

/-! ## Status-transition predicates -/

/-- The transitions the specification allows, written from its words: for one
job, "status only moves forward (`PROCESSING → COMPLETED|FAILED`)"; staying
put is not a transition. -/
def claimAllowedTransition (a b : VirtualTryOnStatus) : Bool :=
  a == b
    || (a == VirtualTryOnStatus.PROCESSING
        && (b == VirtualTryOnStatus.COMPLETED || b == VirtualTryOnStatus.FAILED))

/-- The transitions the code actually performs: the spec's forward moves plus
the regression `COMPLETED → FAILED` taken when the S3 upload of an already
delivered result fails (virtual_tryon.py lines 349-353). -/
def codeAllowedTransition (a b : VirtualTryOnStatus) : Bool :=
  claimAllowedTransition a b
    || (a == VirtualTryOnStatus.COMPLETED && b == VirtualTryOnStatus.FAILED)

/-- A result is retrievable in a state when the cache entry or the durable
`result_image_url` is truthy — the two result channels of the spec. -/
def resultRetrievable (s : ObsState) : Bool :=
  truthy s.cache
    || (match s.record with
        | some r => truthy r.result_image_url
        | none => false)

/-! ## Concrete scenarios -/

/-- A job row as the generate endpoint creates it (line 631): `PROCESSING`,
no error, no result URL. -/
def freshRecord : TryonRecord :=
  ⟨VirtualTryOnStatus.PROCESSING, none, none⟩

/-- One boutique item carrying an inline payload. -/
def demoItems : List Item :=
  [{ item_id := some "7", item_type := "boutique", category := "top",
     colors := ["blue"], image_base64 := some "ITEM_B64" }]

/-- Environment of a run whose generation succeeds and whose S3 upload fails:
every collaborator is concrete. -/
def uploadFailEnv : Env :=
  { fetch := fun _ _ => Except.error "unreachable"
    wardrobe := fun _ => none
    gen := some "RESULT_B64"
    upload := none }

/-- Environment of a run whose generation and upload both succeed. -/
def happyEnv : Env :=
  { fetch := fun _ _ => Except.error "unreachable"
    wardrobe := fun _ => none
    gen := some "RESULT_B64"
    upload := some "https://bucket.s3.amazonaws.com/virtual-tryon/1/tryon_1_result.png" }

/-- The run of a fresh job with an inline subject payload and `demoItems`
under `uploadFailEnv`. -/
def uploadFailRun : RunOut :=
  process_virtual_tryon_with_ai uploadFailEnv (some freshRecord) none none demoItems
    (some "USER_B64") none

/-- The same run under `happyEnv`. -/
def happyRun : RunOut :=
  process_virtual_tryon_with_ai happyEnv (some freshRecord) none none demoItems
    (some "USER_B64") none

/-- Two boutique items of which only the first carries a payload; the second
has no payload and no URL to fetch, so acquisition drops it. -/
def partialItems : List Item :=
  [{ item_id := some "1", item_type := "boutique", category := "top",
     colors := ["blue"], image_base64 := some "TOP_B64" },
   { item_id := some "2", item_type := "boutique", category := "bottom",
     colors := ["black"] }]

/-- The run of a fresh job over `partialItems` under `happyEnv`. -/
def partialRun : RunOut :=
  process_virtual_tryon_with_ai happyEnv (some freshRecord) none none partialItems
    (some "USER_B64") none

/-- An environment whose every HTTP GET attempt fails. -/
def deadFetchEnv : Env :=
  { fetch := fun _ _ => Except.error "ConnectError: dns failure"
    wardrobe := fun _ => none
    gen := some "RESULT_B64"
    upload := some "https://bucket.s3.amazonaws.com/x.png" }

/-- A store holding job 1 owned by user 99, polled below by user 10. -/
def otherOwnerDb : List StoredJob :=
  [⟨1, 99, freshRecord⟩]

/-- A store holding a completed job with no durable URL yet. -/
def pollDbCacheOnly : List StoredJob :=
  [⟨1, 10, ⟨VirtualTryOnStatus.COMPLETED, none, none⟩⟩]

/-- A store holding a completed job whose durable URL is set. -/
def pollDbDurable : List StoredJob :=
  [⟨1, 10, ⟨VirtualTryOnStatus.COMPLETED, none,
    some "https://bucket.s3.amazonaws.com/virtual-tryon/10/tryon_1_result.png"⟩⟩]

/-! ## Theorems -/

/-- C6: a source URL whose fetch always fails is attempted exactly 3 times —
not more, not fewer — before `fetch_with_retries` declares it failed (by
re-raising the last exception), and the back-off delays are `1.5 s × attempt
number`, strictly increasing between consecutive attempts. -/
theorem fetch_retry_exactly_three (oracle : FetchOracle) (err : Nat → String)
    (h : ∀ i, oracle i = Except.error (err i)) :
    fetch_with_retries oracle 3 =
      ⟨Except.error (err 2), 3, [3 / 2, 3, 9 / 2]⟩ ∧
    List.Chain' (· < ·) (fetch_with_retries oracle 3).delays := by
  have hE : fetch_with_retries oracle 3 =
      ⟨Except.error (err 2), 3, [3 / 2, 3, 9 / 2]⟩ := by
    simp only [fetch_with_retries, fetchGo, h 0, h 1, h 2]
    norm_num
  refine ⟨hE, ?_⟩
  rw [hE]
  norm_num [List.chain'_cons]

/-- Witness for `fetch_retry_exactly_three` at a concrete always-failing
oracle. -/
theorem fetch_retry_exactly_three_witness :
    fetch_with_retries (fun _ => Except.error "connection reset") 3 =
      ⟨Except.error "connection reset", 3, [3 / 2, 3, 9 / 2]⟩ ∧
    List.Chain' (· < ·)
      (fetch_with_retries (fun _ => Except.error "connection reset") 3).delays :=
  fetch_retry_exactly_three (fun _ => Except.error "connection reset")
    (fun _ => "connection reset") (fun _ => rfl)

/-- C8 evidence: when every POST to the generation service yields a
deterministic HTTP error status (here 400), the invoker's retry loop issues
3 attempts — the `except (ConnectError, ReadTimeout, HTTPError)` clause
catches `httpx.HTTPStatusError` because it subclasses `httpx.HTTPError` — and
only then gives up (the call returns `None`), sleeping 1.5 s and 3 s between
the attempts. The claim (and the loop's own comment, gemini_service.py line
416) say a deterministic service error is not retried. -/
theorem gemini_status_error_is_retried :
    gemini_retry_loop (fun _ => GeminiAttempt.statusError 400) =
      ⟨none, 3, [3 / 2, 3, 9 / 2]⟩ := by
  norm_num [gemini_retry_loop, geminiCallGo]

/-- C1 counterexample: a run whose generation succeeds and whose upload then
fails ends with the job `FAILED` (error "Failed to upload virtual try-on
result to S3") and the cache entry removed — not, as the claim states, with
the job left `COMPLETED` and its cache entry intact, and the failure is
surfaced to the caller through the status/error fields. -/
theorem upload_failure_counterexample :
    uploadFailRun.finalState =
      some ⟨some ⟨VirtualTryOnStatus.FAILED, some s3UploadFailedMsg, none⟩, none⟩ := by
  rfl

/-- C1 amended: whenever a run reaches delivery (subject acquired, at least
one item payload) with a successful generation and a failing upload, the run
ends with the job `FAILED`, the upload error message recorded, and the cache
entry removed. -/
theorem upload_failure_fails_job (env : Env) (rec : TryonRecord)
    (cache0 url b64 : Option String) (items : List Item)
    (iurls : Option (List String)) (userB64 : Option String) (items1 : List Item)
    (hacq : acquisitionPhase env url b64 iurls items = AcqOutcome.done userB64 items1)
    (huser : truthy userB64 = true)
    (hitems : (items1.filter fun it => truthy it.image_base64) ≠ [])
    (hgen : truthy env.gen = true)
    (hupload : truthy env.upload = false) :
    (process_virtual_tryon_with_ai env (some rec) cache0 url items b64 iurls).finalState =
      some ⟨some ⟨VirtualTryOnStatus.FAILED, some s3UploadFailedMsg,
        rec.result_image_url⟩, none⟩ := by
  simp only [process_virtual_tryon_with_ai, hacq, huser, if_pos, deliveryPhase, hgen,
    hupload, RunOut.finalState]
  rw [if_neg (by simpa [List.isEmpty_iff] using hitems)]
  simp [RunOut.finalState]

/-- Witness for `upload_failure_fails_job` at the concrete upload-failure
scenario. -/
theorem upload_failure_fails_job_witness :
    acquisitionPhase uploadFailEnv none (some "USER_B64") none demoItems =
      AcqOutcome.done (some "USER_B64") demoItems ∧
    (process_virtual_tryon_with_ai uploadFailEnv (some freshRecord) none none demoItems
        (some "USER_B64") none).finalState =
      some ⟨some ⟨VirtualTryOnStatus.FAILED, some s3UploadFailedMsg, none⟩, none⟩ :=
  ⟨rfl,
    upload_failure_fails_job uploadFailEnv freshRecord none none (some "USER_B64")
      demoItems none (some "USER_B64") demoItems rfl rfl (by decide) rfl rfl⟩

/-- C2 counterexample: the upload-failure run produces the observed status
sequence PROCESSING, PROCESSING, COMPLETED, FAILED, whose step
COMPLETED → FAILED is none of the transitions the claim allows
(`PROCESSING → COMPLETED` or `PROCESSING → FAILED`). -/
theorem monotonic_status_counterexample :
    ¬ List.Chain' (fun a b => claimAllowedTransition a b = true)
        uploadFailRun.statuses := by
  have h : uploadFailRun.statuses =
      [VirtualTryOnStatus.PROCESSING, VirtualTryOnStatus.PROCESSING,
       VirtualTryOnStatus.COMPLETED, VirtualTryOnStatus.FAILED] := rfl
  rw [h]
  intro hc
  rcases (List.chain'_cons.mp (List.chain'_cons.mp hc).2).2 with hCF
  exact absurd (List.chain'_cons.mp hCF).1 (by decide)

/-- C2 amended: along any run launched on a fresh `PROCESSING` record, every
observed status transition is `PROCESSING → COMPLETED`,
`PROCESSING → FAILED`, or the regression `COMPLETED → FAILED` taken when the
storage upload of a delivered result fails; a job never re-enters
`PROCESSING` after leaving it. -/
theorem status_transitions_forward_or_upload_regression (env : Env)
    (rec : TryonRecord) (cache0 url b64 : Option String) (items : List Item)
    (iurls : Option (List String))
    (hrec : rec.status = VirtualTryOnStatus.PROCESSING) :
    List.Chain' (fun a b => codeAllowedTransition a b = true)
      (process_virtual_tryon_with_ai env (some rec) cache0 url items b64 iurls).statuses := by
  simp only [process_virtual_tryon_with_ai, RunOut.statuses]
  rcases acquisitionPhase env url b64 iurls items with e | ⟨userB64, items1⟩
  · simp [statusOf, hrec, List.chain'_cons, codeAllowedTransition, claimAllowedTransition]
  · cases huser : truthy userB64 with
    | false =>
      simp [huser, statusOf, hrec, List.chain'_cons, codeAllowedTransition,
        claimAllowedTransition]
    | true =>
      simp only [huser, if_true]
      cases hempty : (items1.filter fun it => truthy it.image_base64).isEmpty with
      | true =>
        simp [hempty, statusOf, hrec, List.chain'_cons, codeAllowedTransition,
          claimAllowedTransition]
      | false =>
        simp only [hempty, if_false, deliveryPhase]
        cases hgen : truthy env.gen with
        | false =>
          simp [hgen, statusOf, hrec, List.chain'_cons, codeAllowedTransition,
            claimAllowedTransition]
        | true =>
          cases hup : truthy env.upload with
          | true =>
            simp [hgen, hup, statusOf, hrec, List.chain'_cons, codeAllowedTransition,
              claimAllowedTransition]
          | false =>
            simp [hgen, hup, statusOf, hrec, List.chain'_cons, codeAllowedTransition,
              claimAllowedTransition]

/-- Witness for `status_transitions_forward_or_upload_regression`: the
fresh-record hypothesis discharged on the happy-path run. -/
theorem status_transitions_witness :
    freshRecord.status = VirtualTryOnStatus.PROCESSING ∧
    List.Chain' (fun a b => codeAllowedTransition a b = true) happyRun.statuses :=
  ⟨rfl,
    status_transitions_forward_or_upload_regression happyEnv freshRecord none none
      (some "USER_B64") demoItems none rfl⟩

/-- C3: every orchestrator run started on an existing record terminates with
the job in a terminal status — `COMPLETED` or `FAILED`, never `PROCESSING` —
and a `FAILED` terminal status always carries a reason string (exceptions,
including the re-raised acquisition failure, are converted at the boundary
handler into `FAILED` with the truncated exception text). -/
theorem run_ends_in_terminal_status (env : Env) (rec : TryonRecord)
    (cache0 url b64 : Option String) (items : List Item)
    (iurls : Option (List String)) :
    ∃ s r,
      (process_virtual_tryon_with_ai env (some rec) cache0 url items b64 iurls).finalState =
        some s ∧
      s.record = some r ∧
      (r.status = VirtualTryOnStatus.COMPLETED ∨ r.status = VirtualTryOnStatus.FAILED) ∧
      (r.status = VirtualTryOnStatus.FAILED → r.error_message.isSome = true) := by
  simp only [process_virtual_tryon_with_ai, RunOut.finalState, deliveryPhase]
  rcases acquisitionPhase env url b64 iurls items with e | ⟨userB64, items1⟩
  · exact ⟨_, _, rfl, rfl, Or.inr rfl, fun _ => rfl⟩
  · cases huser : truthy userB64 with
    | false => simp [huser]
    | true =>
      cases hempty : (items1.filter fun it => truthy it.image_base64).isEmpty with
      | true => simp [huser, hempty]
      | false =>
        cases hgen : truthy env.gen with
        | false => simp [huser, hempty, hgen]
        | true =>
          cases hup : truthy env.upload with
          | false => simp [huser, hempty, hgen, hup]
          | true => simp [huser, hempty, hgen, hup]

/-- C4: when no inline subject payload was supplied and every fetch attempt
for the subject's URL fails, the run ends with the job `FAILED` (the last
fetch exception, truncated, as the reason) and the generation service is
never invoked. -/
theorem subject_fetch_failure_no_generation (env : Env) (rec : TryonRecord)
    (cache0 b64 : Option String) (items : List Item) (iurls : Option (List String))
    (u : String) (err : Nat → String)
    (hb : truthy b64 = false) (hu : u.isEmpty = false)
    (hfetch : ∀ i, env.fetch u i = Except.error (err i)) :
    (process_virtual_tryon_with_ai env (some rec) cache0 (some u) items b64 iurls).genCalls
        = [] ∧
    (process_virtual_tryon_with_ai env (some rec) cache0 (some u) items b64
        iurls).finalState =
      some ⟨some ⟨VirtualTryOnStatus.FAILED, some ((err 2).take 500),
        rec.result_image_url⟩, cache0⟩ := by
  have hsu : truthy (some u) = true := by simp [truthy, hu]
  have hacq : acquisitionPhase env (some u) b64 iurls items =
      AcqOutcome.raised (err 2) := by
    simp [acquisitionPhase, hb, hsu, fetch_with_retries, fetchGo,
      hfetch 0, hfetch 1, hfetch 2]
  simp [process_virtual_tryon_with_ai, hacq, RunOut.finalState, truncate500]

/-- Witness for `subject_fetch_failure_no_generation` with every GET failing. -/
theorem subject_fetch_failure_no_generation_witness :
    (process_virtual_tryon_with_ai deadFetchEnv (some freshRecord) none
        (some "https://bucket.s3.amazonaws.com/user.png") demoItems none none).genCalls
        = [] ∧
    (process_virtual_tryon_with_ai deadFetchEnv (some freshRecord) none
        (some "https://bucket.s3.amazonaws.com/user.png") demoItems none
        none).finalState =
      some ⟨some ⟨VirtualTryOnStatus.FAILED,
        some ("ConnectError: dns failure".take 500), none⟩, none⟩ :=
  subject_fetch_failure_no_generation deadFetchEnv freshRecord none none demoItems
    none "https://bucket.s3.amazonaws.com/user.png" (fun _ => "ConnectError: dns failure")
    rfl rfl (fun _ => rfl)

/-- C5: when the subject payload is available and acquisition left at least
one item with a payload and at least one without (partial degradation), the
run proceeds: the generation invoker is called exactly once, with exactly the
acquired item payloads (the failed items dropped), and on a successful
generation the job reaches `COMPLETED`. -/
theorem partial_acquisition_proceeds (env : Env) (rec : TryonRecord)
    (cache0 url b64 : Option String) (items : List Item)
    (iurls : Option (List String)) (userB64 : Option String) (items1 : List Item)
    (hacq : acquisitionPhase env url b64 iurls items = AcqOutcome.done userB64 items1)
    (huser : truthy userB64 = true)
    (hsome : (items1.filter fun it => truthy it.image_base64) ≠ [])
    (hdropped : (items1.filter fun it => !truthy it.image_base64) ≠ [])
    (hgen : truthy env.gen = true) :
    (process_virtual_tryon_with_ai env (some rec) cache0 url items b64 iurls).genCalls =
      [(items1.filter fun it => truthy it.image_base64).map toGem] ∧
    ∃ s ∈ (process_virtual_tryon_with_ai env (some rec) cache0 url items b64 iurls).trace,
      statusOf s = some VirtualTryOnStatus.COMPLETED := by
  have hempty : (items1.filter fun it => truthy it.image_base64).isEmpty = false := by
    simpa [List.isEmpty_iff] using hsome
  cases hup : truthy env.upload with
  | true =>
    refine ⟨?_, ⟨some ⟨VirtualTryOnStatus.COMPLETED, rec.error_message,
        rec.result_image_url⟩, some (env.gen.getD "")⟩, ?_, rfl⟩
    · simp [process_virtual_tryon_with_ai, hacq, huser, hempty, deliveryPhase, hgen, hup]
    · simp [process_virtual_tryon_with_ai, hacq, huser, hempty, deliveryPhase, hgen, hup]
  | false =>
    refine ⟨?_, ⟨some ⟨VirtualTryOnStatus.COMPLETED, rec.error_message,
        rec.result_image_url⟩, some (env.gen.getD "")⟩, ?_, rfl⟩
    · simp [process_virtual_tryon_with_ai, hacq, huser, hempty, deliveryPhase, hgen, hup]
    · simp [process_virtual_tryon_with_ai, hacq, huser, hempty, deliveryPhase, hgen, hup]

/-- Witness for `partial_acquisition_proceeds`: two items, one without a
payload; the invoker receives exactly the surviving item. -/
theorem partial_acquisition_proceeds_witness :
    acquisitionPhase happyEnv none (some "USER_B64") none partialItems =
      AcqOutcome.done (some "USER_B64") partialItems ∧
    partialRun.genCalls =
      [(partialItems.filter fun it => truthy it.image_base64).map toGem] ∧
    ∃ s ∈ partialRun.trace, statusOf s = some VirtualTryOnStatus.COMPLETED :=
  ⟨rfl,
    (partial_acquisition_proceeds happyEnv freshRecord none none (some "USER_B64")
      partialItems none (some "USER_B64") partialItems rfl rfl (by decide) (by decide)
      rfl).1,
    (partial_acquisition_proceeds happyEnv freshRecord none none (some "USER_B64")
      partialItems none (some "USER_B64") partialItems rfl rfl (by decide) (by decide)
      rfl).2⟩

/-- C7: along every run launched on a fresh job (status `PROCESSING`, no
durable URL, no cache entry), at every observable state the job reads
`COMPLETED` exactly when a result is retrievable through at least one of the
two channels (cache entry or `result_image_url`); in particular the cache
entry is already readable at the state in which `COMPLETED` first appears. -/
theorem completed_iff_result_retrievable (env : Env) (rec : TryonRecord)
    (url b64 : Option String) (items : List Item) (iurls : Option (List String))
    (hst : rec.status = VirtualTryOnStatus.PROCESSING)
    (hurl : rec.result_image_url = none) :
    ∀ s ∈ (process_virtual_tryon_with_ai env (some rec) none url items b64 iurls).trace,
      (statusOf s = some VirtualTryOnStatus.COMPLETED ↔ resultRetrievable s = true) := by
  intro s hs
  rcases hA : acquisitionPhase env url b64 iurls items with e | ⟨userB64, items1⟩
  · simp [process_virtual_tryon_with_ai, hA] at hs
    rcases hs with h | h | h <;> subst h <;>
      simp [statusOf, resultRetrievable, hst, hurl, truthy]
  · cases huser : truthy userB64 with
    | false =>
      simp [process_virtual_tryon_with_ai, hA, huser] at hs
      rcases hs with h | h | h <;> subst h <;>
        simp [statusOf, resultRetrievable, hst, hurl, truthy]
    | true =>
      cases hempty : (items1.filter fun it => truthy it.image_base64).isEmpty with
      | true =>
        simp [process_virtual_tryon_with_ai, hA, huser, hempty] at hs
        rcases hs with h | h | h <;> subst h <;>
          simp [statusOf, resultRetrievable, hst, hurl, truthy]
      | false =>
        cases hgen : truthy env.gen with
        | false =>
          simp [process_virtual_tryon_with_ai, hA, huser, hempty, deliveryPhase,
            hgen] at hs
          rcases hs with h | h | h <;> subst h <;>
            simp [statusOf, resultRetrievable, hst, hurl, truthy]
        | true =>
          have hgenD : truthy (some (env.gen.getD "")) = true := by
            cases h : env.gen
            · rw [h] at hgen; simp [truthy] at hgen
            · rw [h] at hgen; simpa [truthy] using hgen
          cases hup : truthy env.upload with
          | false =>
            simp [process_virtual_tryon_with_ai, hA, huser, hempty, deliveryPhase,
              hgen, hup] at hs
            rcases hs with h | h | h | h <;> subst h <;>
              simp_all [statusOf, resultRetrievable, hst, hurl, truthy]
          | true =>
            simp [process_virtual_tryon_with_ai, hA, huser, hempty, deliveryPhase,
              hgen, hup] at hs
            rcases hs with h | h | h | h <;> subst h <;>
              simp_all [statusOf, resultRetrievable, hst, hurl, truthy]

/-- Witness for `completed_iff_result_retrievable` on the happy-path run. -/
theorem completed_iff_result_retrievable_witness :
    freshRecord.status = VirtualTryOnStatus.PROCESSING ∧
    freshRecord.result_image_url = none ∧
    ∀ s ∈ happyRun.trace,
      (statusOf s = some VirtualTryOnStatus.COMPLETED ↔ resultRetrievable s = true) :=
  ⟨rfl, rfl,
    completed_iff_result_retrievable happyEnv freshRecord none (some "USER_B64")
      demoItems none rfl rfl⟩

/-- C9: for an owner's poll of a `COMPLETED` job, while `result_image_url` is
not yet set the response overlays an existing (truthy) cache entry as the
inline `result_image_base64`; once `result_image_url` is set the response
carries the durable reference and never the inline payload. -/
theorem poll_overlays_cache_until_durable (db : List StoredJob)
    (cache : Int → Option String) (tid uid : Int) (j : StoredJob)
    (hfind : db.find? (fun x => x.id == tid && x.user_id == uid) = some j)
    (hst : j.record.status = VirtualTryOnStatus.COMPLETED) :
    (truthy j.record.result_image_url = false →
      ∀ b64, cache tid = some b64 → b64.isEmpty = false →
        get_tryon_result db cache tid uid =
          ApiResult.ok ⟨VirtualTryOnStatus.COMPLETED, j.record.result_image_url,
            j.record.error_message, some b64⟩) ∧
    (truthy j.record.result_image_url = true →
      get_tryon_result db cache tid uid =
        ApiResult.ok ⟨VirtualTryOnStatus.COMPLETED, j.record.result_image_url,
          j.record.error_message, none⟩) := by
  constructor
  · intro hnu b64 hc hb
    simp [get_tryon_result, hfind, hst, hnu, hc, hb]
  · intro hu
    simp [get_tryon_result, hfind, hst, hu]

/-- Witness for `poll_overlays_cache_until_durable`: a cache-only completed
job answers with the inline payload; a durably stored one with the URL only. -/
theorem poll_overlays_cache_until_durable_witness :
    get_tryon_result pollDbCacheOnly (fun _ => some "CACHED_B64") 1 10 =
      ApiResult.ok ⟨VirtualTryOnStatus.COMPLETED, none, none, some "CACHED_B64"⟩ ∧
    get_tryon_result pollDbDurable (fun _ => some "CACHED_B64") 1 10 =
      ApiResult.ok ⟨VirtualTryOnStatus.COMPLETED,
        some "https://bucket.s3.amazonaws.com/virtual-tryon/10/tryon_1_result.png",
        none, none⟩ :=
  ⟨(poll_overlays_cache_until_durable pollDbCacheOnly (fun _ => some "CACHED_B64")
      1 10 ⟨1, 10, ⟨VirtualTryOnStatus.COMPLETED, none, none⟩⟩ rfl rfl).1
      rfl "CACHED_B64" rfl rfl,
    (poll_overlays_cache_until_durable pollDbDurable (fun _ => some "CACHED_B64")
      1 10 ⟨1, 10, ⟨VirtualTryOnStatus.COMPLETED, none,
        some "https://bucket.s3.amazonaws.com/virtual-tryon/10/tryon_1_result.png"⟩⟩
      rfl rfl).2 rfl⟩

/-- C10: a caller who does not own a job id gets from the poll and the delete
endpoints exactly the not-found outcome (404, "Virtual try-on not found")
they would get for an id that exists nowhere: the two worlds produce equal
responses, so a non-owner cannot tell whether another user's job exists. -/
theorem non_owner_indistinguishable_from_missing (db1 db2 : List StoredJob)
    (cache : Int → Option String) (tid uid : Int)
    (h1 : ∀ j ∈ db1, j.id = tid → j.user_id ≠ uid)
    (h2 : ∀ j ∈ db2, j.id ≠ tid) :
    get_tryon_result db1 cache tid uid = ApiResult.httpError 404 notFoundDetail ∧
    delete_tryon db1 tid uid = ApiResult.httpError 404 notFoundDetail ∧
    get_tryon_result db1 cache tid uid = get_tryon_result db2 cache tid uid ∧
    delete_tryon db1 tid uid = delete_tryon db2 tid uid := by
  have f1 : db1.find? (fun x => x.id == tid && x.user_id == uid) = none := by
    rw [List.find?_eq_none]
    intro j hj
    simp only [Bool.and_eq_true, beq_iff_eq, not_and]
    exact h1 j hj
  have f2 : db2.find? (fun x => x.id == tid && x.user_id == uid) = none := by
    rw [List.find?_eq_none]
    intro j hj
    simp only [Bool.and_eq_true, beq_iff_eq, not_and]
    intro hid
    exact absurd hid (h2 j hj)
  refine ⟨?_, ?_, ?_, ?_⟩ <;> simp [get_tryon_result, delete_tryon, f1, f2]

/-- Witness for `non_owner_indistinguishable_from_missing`: job 1 belongs to
user 99; user 10 polls and deletes it, and polls/deletes an empty store. -/
theorem non_owner_indistinguishable_witness :
    get_tryon_result otherOwnerDb (fun _ => none) 1 10 =
      ApiResult.httpError 404 notFoundDetail ∧
    delete_tryon otherOwnerDb 1 10 = ApiResult.httpError 404 notFoundDetail ∧
    get_tryon_result otherOwnerDb (fun _ => none) 1 10 =
      get_tryon_result [] (fun _ => none) 1 10 ∧
    delete_tryon otherOwnerDb 1 10 = delete_tryon [] 1 10 :=
  non_owner_indistinguishable_from_missing otherOwnerDb [] (fun _ => none) 1 10
    (by decide) (by decide)

end Tryrack
